import Mathlib

/-!
Verification model of the `datamimic` DataProxy core: query classification
(`dataproxy/query_analyzer.py`), routing (`dataproxy/query_router.py`), the
backing-store result behaviour (`dataproxy/database.py`) and the client-facing
protocol session (`dataproxy/proxy_server.py`).

Strings are modelled as Lean `String` (a packed `List Char`); Python string
operations (`strip`, `upper`, `split`, substring `in`) are re-implemented on
character lists.  `upper` is modelled on ASCII letters, which covers every SQL
keyword and pattern used by the source.  The regular expressions of the source
are small and fixed, and each is embedded as a direct scanner with the same
match semantics (leftmost search, greedy repeats, non-overlapping `findall`).
-/

/-- Python `str` whitespace (`\s` for ASCII): space, tab, newline, CR, VT, FF. -/
def pySpace (c : Char) : Bool :=
  c = ' ' || c = '\t' || c = '\n' || c = '\r' || c = '\x0b' || c = '\x0c'

/-- Python `str.strip()`: drop leading and trailing whitespace. -/
def pyStrip (l : List Char) : List Char :=
  ((l.dropWhile pySpace).reverse.dropWhile pySpace).reverse

/-- Python `str.upper()` restricted to ASCII letters. -/
def pyUpper (l : List Char) : List Char :=
  l.map Char.toUpper

/-- All suffixes of a character list, longest first (including the empty one). -/
def listTails : List Char → List (List Char)
  | [] => [[]]
  | c :: rest => (c :: rest) :: listTails rest

/-- Python substring containment `pat in l`. -/
def containsSubstr (pat : List Char) (l : List Char) : Bool :=
  (listTails l).any (fun s => pat.isPrefixOf s)

/-- Python `str.split()` with no argument: split on whitespace runs,
dropping empty pieces.  `acc` holds the current word reversed. -/
def pyWordsAux : List Char → List Char → List String
  | acc, [] => if acc.isEmpty then [] else [String.mk acc.reverse]
  | acc, c :: rest =>
    if pySpace c then
      if acc.isEmpty then pyWordsAux [] rest
      else String.mk acc.reverse :: pyWordsAux [] rest
    else pyWordsAux (c :: acc) rest

def pyWords (s : String) : List String :=
  pyWordsAux [] s.data

/-- `re.sub(r'--.*$', '', q, flags=re.MULTILINE)`: inside a `--` comment
(`inComment = true`) drop characters up to, but not including, the newline. -/
def removeLineCommentsAux : Bool → List Char → List Char
  | _, [] => []
  | true, '\n' :: rest => '\n' :: removeLineCommentsAux false rest
  | true, _ :: rest => removeLineCommentsAux true rest
  | false, '-' :: '-' :: rest => removeLineCommentsAux true rest
  | false, c :: rest => c :: removeLineCommentsAux false rest

def removeLineComments (l : List Char) : List Char :=
  removeLineCommentsAux false l

/-- Position after the first closing `*/`, if any. -/
def findBlockClose : List Char → Option (List Char)
  | [] => none
  | '*' :: '/' :: rest => some rest
  | _ :: rest => findBlockClose rest

/-- `re.sub(r'/\*.*?\*/', '', q, flags=re.DOTALL)`: remove each leftmost,
shortest `/* ... */` block.  Fuelled by the input length, which each
recursive call strictly decreases, so the fuel is never exhausted when the
function is entered through `removeBlockComments`. -/
def removeBlockCommentsFuel : Nat → List Char → List Char
  | 0, l => l
  | _ + 1, [] => []
  | fuel + 1, '/' :: '*' :: rest =>
    match findBlockClose rest with
    | some rest2 => removeBlockCommentsFuel fuel rest2
    | none => '/' :: '*' :: removeBlockCommentsFuel fuel rest
  | fuel + 1, c :: rest => c :: removeBlockCommentsFuel fuel rest

def removeBlockComments (l : List Char) : List Char :=
  removeBlockCommentsFuel l.length l

/-- `re.sub(r'\s+', ' ', q)`: collapse each whitespace run to one space.
`prevSpace` records whether the previous character was part of a run. -/
def collapseWSAux : Bool → List Char → List Char
  | _, [] => []
  | prevSpace, c :: rest =>
    if pySpace c then
      if prevSpace then collapseWSAux true rest
      else ' ' :: collapseWSAux true rest
    else c :: collapseWSAux false rest

/-- `QueryAnalyzer.analyze_query` normalization pipeline:
`strip`, `upper`, strip `--` line comments, strip block comments,
collapse whitespace, final `strip`. -/
def normalize_query (q : String) : String :=
  String.mk (pyStrip (collapseWSAux false
    (removeBlockComments (removeLineComments (pyUpper (pyStrip q.data))))))

def WRITE_KEYWORDS : List String :=
  ["INSERT", "UPDATE", "DELETE", "REPLACE", "TRUNCATE", "DROP", "CREATE", "ALTER"]

def READ_KEYWORDS : List String :=
  ["SELECT", "SHOW", "DESCRIBE", "EXPLAIN", "USE"]

/-- `QueryAnalyzer._classify_query`, applied to the normalized query text.
Note the heuristic fallback uses Python substring containment
(`"INTO" in query`), not whole-token membership. -/
def classify_query (q : String) : String :=
  match pyWords q with
  | [] => "UNKNOWN"
  | first_word :: _ =>
    if first_word ∈ WRITE_KEYWORDS then "WRITE"
    else if first_word ∈ READ_KEYWORDS then "READ"
    else if containsSubstr "INTO".data q.data || containsSubstr "SET".data q.data then
      "WRITE"
    else if containsSubstr "FROM".data q.data || containsSubstr "JOIN".data q.data then
      "READ"
    else "UNKNOWN"

/-- ASCII `\w` of the table-name regexes. -/
def isWordChar (c : Char) : Bool :=
  if ('A' ≤ c ∧ c ≤ 'Z') ∨ ('a' ≤ c ∧ c ≤ 'z') ∨ ('0' ≤ c ∧ c ≤ '9') ∨ c = '_' then
    true
  else false

/-- The back-quote character used for optional identifier quoting. -/
def backquote : Char := Char.ofNat 96

def stripLeadBackquote (l : List Char) : List Char :=
  match l with
  | c :: t => if c = backquote then t else l
  | [] => []

/-- One attempt of the table-name regex `KW\s+?(\w+)?` (with optional
back-quotes around the group) anchored at the head of `l`.  On success,
returns the captured identifier and the remainder after the whole match. -/
def matchKwTableAt (kw : List Char) (l : List Char) : Option (List Char × List Char) :=
  if kw.isPrefixOf l then
    let r := l.drop kw.length
    if (r.takeWhile pySpace).isEmpty then none
    else
      let r1 := stripLeadBackquote (r.dropWhile pySpace)
      let w := r1.takeWhile isWordChar
      if w.isEmpty then none
      else some (w, stripLeadBackquote (r1.dropWhile isWordChar))
  else none

/-- `re.findall` of the table-name regex: scan left to right, collect
non-overlapping matches.  Fuelled by the input length plus one; every
recursive call consumes at least one character, so the fuel suffices. -/
def findAllTablesFuel (kw : List Char) : Nat → List Char → List (List Char)
  | 0, _ => []
  | _ + 1, [] => []
  | fuel + 1, c :: rest =>
    match matchKwTableAt kw (c :: rest) with
    | some (w, r) => w :: findAllTablesFuel kw fuel r
    | none => findAllTablesFuel kw fuel rest

def findallTables (kw : List Char) (l : List Char) : List String :=
  (findAllTablesFuel kw (l.length + 1) l).map String.mk

/-- `list(set(...))` on the extracted names.  Python's set iteration order is
unspecified; the model keeps the first occurrence of each name, which is
irrelevant to every property proved below. -/
def pyDedupAux (seen : List String) : List String → List String
  | [] => []
  | x :: xs =>
    if x ∈ seen then pyDedupAux seen xs
    else x :: pyDedupAux (x :: seen) xs

def pyDedup (l : List String) : List String :=
  pyDedupAux [] l

/-- `QueryAnalyzer._extract_table_names` on the normalized query. -/
def extract_table_names (q : String) (query_type : String) : List String :=
  let l := q.data
  let names :=
    if query_type = "READ" then
      findallTables "FROM".data l ++ findallTables "JOIN".data l
    else if query_type = "WRITE" then
      if "INSERT".data.isPrefixOf l then findallTables "INTO".data l
      else if "UPDATE".data.isPrefixOf l then findallTables "UPDATE".data l
      else if "DELETE".data.isPrefixOf l then findallTables "FROM".data l
      else if "REPLACE".data.isPrefixOf l then findallTables "INTO".data l
      else if "TRUNCATE".data.isPrefixOf l then findallTables "TABLE".data l
      else if "DROP".data.isPrefixOf l then findallTables "TABLE".data l
      else if "CREATE".data.isPrefixOf l then findallTables "TABLE".data l
      else if "ALTER".data.isPrefixOf l then findallTables "TABLE".data l
      else []
    else []
  pyDedup (names.filter (fun n => n ≠ ""))

/-- `QueryAnalyzer.analyze_query`: `(query_type, table_names, query.strip())`. -/
def analyze_query (q : String) : String × List String × String :=
  let nq := normalize_query q
  let query_type := classify_query nq
  (query_type, extract_table_names nq query_type, String.mk (pyStrip q.data))

/-- `\s+B` anchored at the head of the list: one or more whitespace
characters, then the literal `b`. -/
def matchSpThen (b : List Char) : List Char → Bool
  | [] => false
  | c :: rest => pySpace c && (b.isPrefixOf rest || matchSpThen b rest)

/-- `.*\s+B` anchored at the head: any run of non-newline characters, then
one or more whitespace characters, then the literal `b`. -/
def matchDotStarSpThen (b : List Char) : List Char → Bool
  | [] => false
  | c :: rest => matchSpThen b (c :: rest) || (c ≠ '\n' && matchDotStarSpThen b rest)

/-- `\s+.*\s+B` anchored at the head. -/
def matchSpDotSpThen (b : List Char) : List Char → Bool
  | [] => false
  | c :: rest => pySpace c && (matchDotStarSpThen b rest || matchSpDotSpThen b rest)

/-- `re.search(A\s+B, l)`: the two-literal dangerous patterns. -/
def searchLitSpLit (a b : List Char) (l : List Char) : Bool :=
  (listTails l).any (fun s => a.isPrefixOf s && matchSpThen b (s.drop a.length))

/-- `re.search(A\s+.*\s+B, l)`: the `GRANT ... ON` / `REVOKE ... FROM` patterns. -/
def searchLitDotLit (a b : List Char) (l : List Char) : Bool :=
  (listTails l).any (fun s => a.isPrefixOf s && matchSpDotSpThen b (s.drop a.length))

/-- `QueryAnalyzer.is_safe_query`: the statement (stripped and uppercased)
matches none of the fixed denylist patterns. -/
def is_safe_query (q : String) : Bool :=
  let n := pyUpper (pyStrip q.data)
  !(searchLitSpLit "DROP".data "DATABASE".data n ||
    searchLitSpLit "CREATE".data "DATABASE".data n ||
    searchLitSpLit "ALTER".data "DATABASE".data n ||
    searchLitDotLit "GRANT".data "ON".data n ||
    searchLitDotLit "REVOKE".data "FROM".data n ||
    searchLitSpLit "FLUSH".data "PRIVILEGES".data n ||
    searchLitSpLit "SET".data "PASSWORD".data n ||
    searchLitSpLit "CREATE".data "USER".data n ||
    searchLitSpLit "DROP".data "USER".data n)

/-- `QueryRouter._get_rows_affected`: a constant estimate of 1 for statements
whose raw text, uppercased, starts with INSERT/UPDATE/DELETE; `None` otherwise. -/
def get_rows_affected (q : String) : Option Nat :=
  let u := pyUpper q.data
  if "INSERT".data.isPrefixOf u then some 1
  else if "UPDATE".data.isPrefixOf u then some 1
  else if "DELETE".data.isPrefixOf u then some 1
  else none

/-!
## Backing-store model

`DatabaseManager` (`dataproxy/database.py`) is modelled as an oracle
environment.  `execute_production_query` / `execute_local_query` run a
statement on the corresponding engine and return its rows when the statement
produces a result set, `None` when it succeeds without a result set, and
`None` again when execution raises `SQLAlchemyError` — the two latter cases
are indistinguishable to the caller, which several claims turn on.  The
backend itself is modelled by `BackendResult`, which keeps the distinction.

Every backing-store interaction of the router is recorded in an event trace:
`tableExistsLocal` (the local `information_schema.tables` lookup of
`table_exists_local`), `getSchema` (the read-only production
`information_schema.columns` lookup of `get_table_schema`), `createTable`
(the local `CREATE TABLE IF NOT EXISTS` of `create_local_table`), and
`execLocal` / `execProd` (execution of a client statement on the local or
production engine).
-/

/-- One row of `information_schema.columns` as consumed by
`DatabaseManager.create_local_table`. -/
structure ColumnInfo where
  column_name : String
  data_type : String
  is_nullable : String
  column_default : Option String
  extra : Option String
deriving Repr, DecidableEq

/-- What one statement execution does on one engine: returns a result set,
succeeds without a result set, or raises. -/
inductive BackendResult (α : Type)
  | rows (rs : List α)
  | noRows
  | error (msg : String)
deriving Repr, DecidableEq

/-- The oracle environment standing for the two backing stores, at the
collaborator interface of `DatabaseManager`. -/
structure DBEnv (α : Type) where
  prodBackend : String → BackendResult α
  localBackend : String → BackendResult α
  tableExistsLocal : String → Bool
  getSchema : String → Option (List ColumnInfo)
  createTable : String → Bool

/-- Backing-store interactions, in call order. -/
inductive DBEvent
  | tableExistsLocal (t : String)
  | getSchema (t : String)
  | createTable (t : String)
  | execLocal (q : String)
  | execProd (q : String)
deriving Repr, DecidableEq

/-- `DatabaseManager.execute_production_query`: rows on a result set,
`None` both on a row-less success and on an execution error. -/
def execute_production_query (env : DBEnv α) (q : String) : Option (List α) :=
  match env.prodBackend q with
  | .rows rs => some rs
  | .noRows => none
  | .error _ => none

/-- `DatabaseManager.execute_local_query`, same contract as the production one. -/
def execute_local_query (env : DBEnv α) (q : String) : Option (List α) :=
  match env.localBackend q with
  | .rows rs => some rs
  | .noRows => none
  | .error _ => none

/-- Python truthiness of an optional list (`if schema:`):
`None` and the empty list are falsy. -/
def pyTruthy : Option (List β) → Bool
  | some (_ :: _) => true
  | _ => false

/-- The routing outcome dictionary of `QueryRouter`.  Optional fields model
keys that some outcomes omit; `rows_affected = some none` models the key
being present with Python value `None`. -/
structure RoutingOutcome (α : Type) where
  success : Bool
  query_type : String
  routed_to : String
  error : Option String := none
  data : Option (Option (List α)) := none
  table_names : Option (List String) := none
  rows_affected : Option (Option Nat) := none
deriving Repr, DecidableEq

/-- The short-circuiting `all(table_exists_local(t) for t in tables)` of
`_handle_read_query`, with its trace of existence checks. -/
def checkTablesLocal (env : DBEnv α) : List String → Bool × List DBEvent
  | [] => (true, [])
  | t :: ts =>
    if env.tableExistsLocal t then
      let r := checkTablesLocal env ts
      (r.1, .tableExistsLocal t :: r.2)
    else (false, [.tableExistsLocal t])

/-- `QueryRouter._handle_read_query`. -/
def handle_read_query (env : DBEnv α) (query : String) (table_names : List String) :
    RoutingOutcome α × List DBEvent :=
  let c := checkTablesLocal env table_names
  if c.1 && !table_names.isEmpty then
    match execute_local_query env query with
    | some result =>
      ({ success := true, data := some (some result), query_type := "READ",
         routed_to := "local", table_names := some table_names },
       c.2 ++ [.execLocal query])
    | none =>
      ({ success := true, data := some (execute_production_query env query),
         query_type := "READ", routed_to := "production",
         table_names := some table_names },
       c.2 ++ [.execLocal query, .execProd query])
  else
    ({ success := true, data := some (execute_production_query env query),
       query_type := "READ", routed_to := "production",
       table_names := some table_names },
     c.2 ++ [.execProd query])

/-- The per-table synchronization loop of `_handle_write_query` (lines
104-124): for each table absent locally, fetch the production schema and
create the table; the first failure aborts with the corresponding error
outcome.  Returns `none` when every table is synchronized. -/
def syncTables (env : DBEnv α) : List String → Option (RoutingOutcome α) × List DBEvent
  | [] => (none, [])
  | t :: ts =>
    if env.tableExistsLocal t then
      let r := syncTables env ts
      (r.1, .tableExistsLocal t :: r.2)
    else if pyTruthy (env.getSchema t) then
      if env.createTable t then
        let r := syncTables env ts
        (r.1, .tableExistsLocal t :: .getSchema t :: .createTable t :: r.2)
      else
        (some { success := false, error := some ("Failed to create local table: " ++ t),
                query_type := "WRITE", routed_to := "error" },
         [.tableExistsLocal t, .getSchema t, .createTable t])
    else
      (some { success := false, error := some ("Failed to get schema for table: " ++ t),
              query_type := "WRITE", routed_to := "error" },
       [.tableExistsLocal t, .getSchema t])

/-- `QueryRouter._handle_write_query`. -/
def handle_write_query (env : DBEnv α) (query : String) (table_names : List String) :
    RoutingOutcome α × List DBEvent :=
  if table_names.isEmpty then
    ({ success := false, error := some "No table names found in write query",
       query_type := "WRITE", routed_to := "error" }, [])
  else
    match syncTables env table_names with
    | (some failure, tr) => (failure, tr)
    | (none, tr) =>
      match execute_local_query env query with
      | some result =>
        ({ success := true, data := some (some result), query_type := "WRITE",
           routed_to := "local", table_names := some table_names,
           rows_affected := some (get_rows_affected query) },
         tr ++ [.execLocal query])
      | none =>
        ({ success := false, error := some "Write query failed on local database",
           query_type := "WRITE", routed_to := "error" },
         tr ++ [.execLocal query])

/-- `QueryRouter._handle_unknown_query`: best-effort production execution;
`success` is `result is not None` and the warning sits in the `error` key. -/
def handle_unknown_query (env : DBEnv α) (query : String) :
    RoutingOutcome α × List DBEvent :=
  let result := execute_production_query env query
  ({ success := result.isSome, data := some result, query_type := "UNKNOWN",
     routed_to := "production",
     error := some "Query type unknown, executed on production" },
   [.execProd query])

/-- `QueryRouter.route_query`: analyze, reject unsafe statements before any
backing-store call, then dispatch on the classification. -/
def route_query (env : DBEnv α) (query : String) : RoutingOutcome α × List DBEvent :=
  let a := analyze_query query
  let query_type := a.1
  let table_names := a.2.1
  if !is_safe_query query then
    ({ success := false, error := some "Query contains potentially dangerous operations",
       query_type := query_type, routed_to := "rejected" }, [])
  else if query_type = "READ" then handle_read_query env query table_names
  else if query_type = "WRITE" then handle_write_query env query table_names
  else handle_unknown_query env query

/-!
## Protocol session model (`dataproxy/proxy_server.py`)

A frame is a 4-byte header (3-byte little-endian payload length plus one
sequence byte) followed by the payload.  `read_packet` receives the byte
lists actually delivered by the two `recv` calls of
`ClientHandler._read_packet`; returning `none` models the `break` out of the
query loop, after which `ClientHandler.handle` reaches its `finally` block
and closes the socket.
-/

/-- `int.from_bytes(header[:3], 'little')`. -/
def leBytes3 (header : List Nat) : Nat :=
  match header with
  | b0 :: b1 :: b2 :: _ => b0 + 256 * b1 + 65536 * b2
  | [b0, b1] => b0 + 256 * b1
  | [b0] => b0
  | [] => 0

/-- `ClientHandler._read_packet` given the bytes the two `recv` calls
delivered: fail on a short header, fail when fewer payload bytes than the
declared length were read, otherwise accept the payload. -/
def read_packet (header payload : List Nat) : Option (List Nat) :=
  if header.length < 4 then none
  else if payload.length < leBytes3 header then none
  else some payload

/-- The query loop's state after one read attempt: `closed` models breaking
out of the loop in `ClientHandler.handle` (the socket is then closed in the
`finally` block); `queryLoop` models continuing.  An empty packet is falsy
in Python, so `if not packet: break` also closes on it. -/
inductive SessionState
  | queryLoop
  | closed
deriving Repr, DecidableEq

def query_loop_step (header payload : List Nat) : SessionState :=
  match read_packet header payload with
  | none => .closed
  | some packet => if packet.isEmpty then .closed else .queryLoop

/-- The response frame produced for one query, abstracting the raw bytes:
`resultSet` is the column/row encoding of `_send_result_set`, `okPacket n`
is `b'\x00' + n.to_bytes(8,'little') + b'\x00'` from `_send_ok_packet`, and
`errorFrame msg` is `b'\xff' + msg` from `_send_error`. -/
inductive Response (α : Type)
  | resultSet (data : List α)
  | okPacket (rows_affected : Nat)
  | errorFrame (msg : String)
deriving Repr, DecidableEq

/-- Truthiness of `result.get('data')`: the key must be present and hold a
non-empty list. -/
def pyTruthyData : Option (Option (List α)) → Bool
  | some (some (_ :: _)) => true
  | _ => false

/-- `result.get('rows_affected', 0)`: `0` when the key is absent, else the
stored value, which may be Python `None`. -/
def pyGetRowsAffected : Option (Option Nat) → Option Nat
  | none => some 0
  | some v => v

/-- `ClientHandler._send_results`: result set for a READ with truthy data,
otherwise an OK packet carrying `rows_affected`.  When `rows_affected` is
Python `None`, `None.to_bytes(8, 'little')` raises inside
`_send_ok_packet`; the surrounding `except` then sends the error frame
`"Failed to send results"`. -/
def send_results (r : RoutingOutcome α) : Response α :=
  if r.query_type = "READ" && pyTruthyData r.data then
    .resultSet ((r.data.getD none).getD [])
  else
    match pyGetRowsAffected r.rows_affected with
    | some n => .okPacket n
    | none => .errorFrame "Failed to send results"

/-- `ClientHandler._handle_query`: route, then either encode the outcome or
send its error message. -/
def handle_query (env : DBEnv α) (q : String) : Response α :=
  let result := (route_query env q).1
  if result.success then send_results result
  else .errorFrame (result.error.getD "Query failed")

/-!
## Trace predicates and counters
-/

/-- Does this event execute a statement on the production engine? -/
def isProdExec : DBEvent → Bool
  | .execProd _ => true
  | _ => false

/-- Does this event mutate the local store (table creation or statement
execution)? -/
def isLocalMutation : DBEvent → Bool
  | .createTable _ => true
  | .execLocal _ => true
  | _ => false

/-- Number of occurrences of an event in a trace. -/
def countEvent (e : DBEvent) : List DBEvent → Nat
  | [] => 0
  | x :: rest => (if x = e then 1 else 0) + countEvent e rest

/-!
## Concrete environments and inputs used by witnesses and counterexamples
-/

/-- An inert environment: everything errors, no table exists locally. -/
def envInert : DBEnv Unit where
  prodBackend := fun _ => .error "down"
  localBackend := fun _ => .error "down"
  tableExistsLocal := fun _ => false
  getSchema := fun _ => none
  createTable := fun _ => false

/-- Every table exists locally; both engines fault on every statement. -/
def envBothFault : DBEnv Unit where
  prodBackend := fun _ => .error "production fault"
  localBackend := fun _ => .error "local fault"
  tableExistsLocal := fun _ => true
  getSchema := fun _ => none
  createTable := fun _ => false

/-- Production succeeds without producing rows; local store empty. -/
def envProdNoRows : DBEnv Unit where
  prodBackend := fun _ => .noRows
  localBackend := fun _ => .noRows
  tableExistsLocal := fun _ => false
  getSchema := fun _ => none
  createTable := fun _ => false

/-- A single production column descriptor. -/
def colId : ColumnInfo where
  column_name := "id"
  data_type := "int"
  is_nullable := "NO"
  column_default := none
  extra := none

/-- No table exists locally, production knows every schema, creation
succeeds, and local execution returns an (empty) result set. -/
def envSyncOk : DBEnv Unit where
  prodBackend := fun _ => .rows []
  localBackend := fun _ => .rows []
  tableExistsLocal := fun _ => false
  getSchema := fun _ => some [colId]
  createTable := fun _ => true

/-- Every table exists locally and both engines return result sets. -/
def envAllLocal : DBEnv Unit where
  prodBackend := fun _ => .rows []
  localBackend := fun _ => .rows []
  tableExistsLocal := fun _ => true
  getSchema := fun _ => some [colId]
  createTable := fun _ => true

/-!
## Lemmas about traces
-/

lemma countEvent_append (e : DBEvent) (l₁ l₂ : List DBEvent) :
    countEvent e (l₁ ++ l₂) = countEvent e l₁ + countEvent e l₂ := by
  induction l₁ with
  | nil => simp [countEvent]
  | cons x xs ih => simp [countEvent, ih]; omega

lemma countEvent_eq_zero_of_not_mem {e : DBEvent} {l : List DBEvent} (h : e ∉ l) :
    countEvent e l = 0 := by
  induction l with
  | nil => rfl
  | cons x xs ih =>
    simp only [List.mem_cons, not_or] at h
    have hx : ¬x = e := fun hx => h.1 hx.symm
    simp [countEvent, ih h.2, hx]

lemma syncTables_events (env : DBEnv α) (ts : List String) :
    ∀ e ∈ (syncTables env ts).2, ∃ t, t ∈ ts ∧
      (e = .tableExistsLocal t ∨ e = .getSchema t ∨ e = .createTable t) := by
  induction ts with
  | nil => simp [syncTables]
  | cons t ts ih =>
    intro e he
    simp only [syncTables] at he
    by_cases h1 : env.tableExistsLocal t
    · rw [if_pos h1] at he
      simp only [List.mem_cons] at he
      rcases he with rfl | he
      · exact ⟨t, by simp, Or.inl rfl⟩
      · obtain ⟨t', ht', h'⟩ := ih e he
        exact ⟨t', by simp [ht'], h'⟩
    · rw [if_neg h1] at he
      by_cases h2 : pyTruthy (env.getSchema t)
      · rw [if_pos h2] at he
        by_cases h3 : env.createTable t
        · rw [if_pos h3] at he
          simp only [List.mem_cons] at he
          rcases he with rfl | rfl | rfl | he
          · exact ⟨t, by simp, Or.inl rfl⟩
          · exact ⟨t, by simp, Or.inr (Or.inl rfl)⟩
          · exact ⟨t, by simp, Or.inr (Or.inr rfl)⟩
          · obtain ⟨t', ht', h'⟩ := ih e he
            exact ⟨t', by simp [ht'], h'⟩
        · rw [if_neg h3] at he
          simp only [List.mem_cons, List.not_mem_nil, or_false] at he
          rcases he with rfl | rfl | rfl
          · exact ⟨t, by simp, Or.inl rfl⟩
          · exact ⟨t, by simp, Or.inr (Or.inl rfl)⟩
          · exact ⟨t, by simp, Or.inr (Or.inr rfl)⟩
      · rw [if_neg h2] at he
        simp only [List.mem_cons, List.not_mem_nil, or_false] at he
        rcases he with rfl | rfl
        · exact ⟨t, by simp, Or.inl rfl⟩
        · exact ⟨t, by simp, Or.inr (Or.inl rfl)⟩

lemma syncTables_no_exec (env : DBEnv α) (ts : List String) :
    ∀ e ∈ (syncTables env ts).2, isProdExec e = false ∧ (∀ s, e ≠ .execLocal s) := by
  intro e he
  obtain ⟨t, _, h⟩ := syncTables_events env ts e he
  rcases h with rfl | rfl | rfl <;> exact ⟨rfl, fun s hs => by cases hs⟩

lemma syncTables_getSchema_zero_of_not_mem (env : DBEnv α) {ts : List String}
    {t : String} (h : t ∉ ts) :
    countEvent (.getSchema t) (syncTables env ts).2 = 0 := by
  apply countEvent_eq_zero_of_not_mem
  intro hmem
  obtain ⟨t', ht', h'⟩ := syncTables_events env ts _ hmem
  rcases h' with h' | h' | h' <;> first
    | (cases h'; exact h ht')
    | simp at h'

lemma syncTables_createTable_zero_of_not_mem (env : DBEnv α) {ts : List String}
    {t : String} (h : t ∉ ts) :
    countEvent (.createTable t) (syncTables env ts).2 = 0 := by
  apply countEvent_eq_zero_of_not_mem
  intro hmem
  obtain ⟨t', ht', h'⟩ := syncTables_events env ts _ hmem
  rcases h' with h' | h' | h' <;> first
    | (cases h'; exact h ht')
    | simp at h'

lemma syncTables_fst_success_false (env : DBEnv α) (ts : List String)
    {o : RoutingOutcome α} (h : (syncTables env ts).1 = some o) :
    o.success = false ∧ o.routed_to = "error" := by
  induction ts with
  | nil => simp [syncTables] at h
  | cons t ts ih =>
    simp only [syncTables] at h
    by_cases h1 : env.tableExistsLocal t
    · rw [if_pos h1] at h; exact ih h
    · rw [if_neg h1] at h
      by_cases h2 : pyTruthy (env.getSchema t)
      · rw [if_pos h2] at h
        by_cases h3 : env.createTable t
        · rw [if_pos h3] at h; exact ih h
        · rw [if_neg h3] at h
          cases h
          exact ⟨rfl, rfl⟩
      · rw [if_neg h2] at h
        cases h
        exact ⟨rfl, rfl⟩

lemma syncTables_count_one (env : DBEnv α) {ts : List String} {t : String}
    (hnd : ts.Nodup) (hmem : t ∈ ts) (habs : env.tableExistsLocal t = false)
    (hok : (syncTables env ts).1 = none) :
    countEvent (.getSchema t) (syncTables env ts).2 = 1 ∧
    countEvent (.createTable t) (syncTables env ts).2 = 1 := by
  induction ts with
  | nil => cases hmem
  | cons t' ts ih =>
    have hnd' : ts.Nodup := hnd.of_cons
    have hnotin : t' ∉ ts := (List.nodup_cons.mp hnd).1
    simp only [syncTables] at hok ⊢
    by_cases h1 : env.tableExistsLocal t'
    · rw [if_pos h1] at hok ⊢
      have hne : t ≠ t' := fun h => by subst h; rw [h1] at habs; cases habs
      have hmem' : t ∈ ts := by
        rcases List.mem_cons.mp hmem with h | h
        · exact absurd h hne
        · exact h
      have := ih hnd' hmem' hok
      constructor <;> simp [countEvent, this.1, this.2]
    · rw [if_neg h1] at hok ⊢
      by_cases h2 : pyTruthy (env.getSchema t')
      · rw [if_pos h2] at hok ⊢
        by_cases h3 : env.createTable t'
        · rw [if_pos h3] at hok ⊢
          by_cases hne : t = t'
          · subst hne
            have z1 := syncTables_getSchema_zero_of_not_mem env (t := t) hnotin
            have z2 := syncTables_createTable_zero_of_not_mem env (t := t) hnotin
            constructor <;> simp [countEvent, z1, z2]
          · have hmem' : t ∈ ts := by
              rcases List.mem_cons.mp hmem with h | h
              · exact absurd h hne
              · exact h
            have := ih hnd' hmem' hok
            have hne' : t' ≠ t := fun h => hne h.symm
            constructor <;> simp [countEvent, this.1, this.2, hne']
        · rw [if_neg h3] at hok; cases hok
      · rw [if_neg h2] at hok; cases hok

lemma syncTables_getSchema_zero_of_exists (env : DBEnv α) (ts : List String)
    {t : String} (h : env.tableExistsLocal t = true) :
    countEvent (.getSchema t) (syncTables env ts).2 = 0 := by
  induction ts with
  | nil => rfl
  | cons t' ts ih =>
    simp only [syncTables]
    by_cases h1 : env.tableExistsLocal t'
    · rw [if_pos h1]; simp [countEvent, ih]
    · rw [if_neg h1]
      have hne : t' ≠ t := fun he => by subst he; rw [h] at h1; exact h1 rfl
      by_cases h2 : pyTruthy (env.getSchema t')
      · rw [if_pos h2]
        by_cases h3 : env.createTable t'
        · rw [if_pos h3]; simp [countEvent, ih, hne]
        · rw [if_neg h3]; simp [countEvent, hne]
      · rw [if_neg h2]; simp [countEvent, hne]

lemma syncTables_fail_no_schema (env : DBEnv α) {t : String} (post : List String)
    (habs : env.tableExistsLocal t = false)
    (hns : pyTruthy (env.getSchema t) = false) :
    ∀ pre : List String, (∀ t' ∈ pre, env.tableExistsLocal t' = true) →
      syncTables env (pre ++ t :: post) =
        (some { success := false, error := some ("Failed to get schema for table: " ++ t),
                query_type := "WRITE", routed_to := "error" },
         pre.map DBEvent.tableExistsLocal ++ [.tableExistsLocal t, .getSchema t]) := by
  intro pre
  induction pre with
  | nil =>
    intro _
    simp only [List.nil_append, syncTables, habs, hns]
    simp
  | cons p pre ih =>
    intro hpre
    have hp : env.tableExistsLocal p = true := hpre p (by simp)
    have hrest := ih (fun t' ht' => hpre t' (by simp [ht']))
    simp only [List.cons_append, syncTables, hp, if_true]
    simp only [List.append_eq, hrest]
    simp

lemma checkTablesLocal_all_true (env : DBEnv α) {ts : List String}
    (h : ∀ t ∈ ts, env.tableExistsLocal t = true) :
    checkTablesLocal env ts = (true, ts.map DBEvent.tableExistsLocal) := by
  induction ts with
  | nil => rfl
  | cons t ts ih =>
    have ht : env.tableExistsLocal t = true := h t (by simp)
    have := ih (fun t' ht' => h t' (by simp [ht']))
    simp [checkTablesLocal, ht, this]

lemma checkTablesLocal_false_of_missing (env : DBEnv α) {ts : List String}
    {t : String} (hmem : t ∈ ts) (hf : env.tableExistsLocal t = false) :
    (checkTablesLocal env ts).1 = false := by
  induction ts with
  | nil => cases hmem
  | cons t' ts ih =>
    simp only [checkTablesLocal]
    by_cases h1 : env.tableExistsLocal t'
    · rw [if_pos h1]
      have hne : t ≠ t' := fun h => by subst h; rw [h1] at hf; cases hf
      rcases List.mem_cons.mp hmem with h | h
      · exact absurd h hne
      · exact ih h
    · rw [if_neg h1]

lemma checkTablesLocal_events (env : DBEnv α) (ts : List String) :
    ∀ e ∈ (checkTablesLocal env ts).2, ∃ t, t ∈ ts ∧ e = .tableExistsLocal t := by
  induction ts with
  | nil => simp [checkTablesLocal]
  | cons t ts ih =>
    intro e he
    simp only [checkTablesLocal] at he
    by_cases h1 : env.tableExistsLocal t
    · rw [if_pos h1] at he
      simp only [List.mem_cons] at he
      rcases he with rfl | he
      · exact ⟨t, by simp, rfl⟩
      · obtain ⟨t', ht', rfl⟩ := ih e he
        exact ⟨t', by simp [ht'], rfl⟩
    · rw [if_neg h1] at he
      simp only [List.mem_cons, List.not_mem_nil, or_false] at he
      subst he
      exact ⟨t, by simp, rfl⟩

lemma handle_write_query_trace_sync_fail (env : DBEnv α) (q : String)
    {ts : List String} {o : RoutingOutcome α} {tr : List DBEvent}
    (hts : ts.isEmpty = false) (hs : syncTables env ts = (some o, tr)) :
    handle_write_query env q ts = (o, tr) := by
  simp [handle_write_query, hts, hs]

lemma handle_write_query_trace_sync_ok (env : DBEnv α) (q : String)
    {ts : List String} {tr : List DBEvent}
    (hts : ts.isEmpty = false) (hs : syncTables env ts = (none, tr)) :
    (handle_write_query env q ts).2 = tr ++ [.execLocal q] := by
  simp only [handle_write_query, hts, Bool.false_eq_true, if_false, hs]
  cases execute_local_query env q <;> simp

lemma handle_write_query_success_shape (env : DBEnv α) (q : String)
    (ts : List String) (h : (handle_write_query env q ts).1.success = true) :
    ∃ rs, execute_local_query env q = some rs ∧
      (handle_write_query env q ts).1 =
        { success := true, data := some (some rs), query_type := "WRITE",
          routed_to := "local", table_names := some ts,
          rows_affected := some (get_rows_affected q) } := by
  by_cases hts : ts.isEmpty
  · simp [handle_write_query, hts] at h
  · rw [Bool.not_eq_true] at hts
    cases hs : syncTables env ts with
    | mk fst tr =>
      cases fst with
      | some o =>
        rw [handle_write_query_trace_sync_fail env q hts hs] at h
        have := syncTables_fst_success_false env ts (o := o) (by rw [hs])
        rw [this.1] at h
        cases h
      | none =>
        simp only [handle_write_query, hts, Bool.false_eq_true, if_false, hs] at h ⊢
        cases hl : execute_local_query env q with
        | some rs => exact ⟨rs, rfl, rfl⟩
        | none =>
          rw [hl] at h
          exact absurd h Bool.false_ne_true

lemma handle_write_query_events (env : DBEnv α) (q : String) (ts : List String) :
    ∀ e ∈ (handle_write_query env q ts).2,
      isProdExec e = false ∧ (∀ s, e = .execLocal s → s = q) := by
  intro e he
  by_cases hts : ts.isEmpty
  · simp [handle_write_query, hts] at he
  · rw [Bool.not_eq_true] at hts
    cases hs : syncTables env ts with
    | mk fst tr =>
      cases fst with
      | some o =>
        rw [handle_write_query_trace_sync_fail env q hts hs] at he
        have hsync := syncTables_no_exec env ts e (by rw [hs]; exact he)
        exact ⟨hsync.1, fun s hes => absurd hes (hsync.2 s)⟩
      | none =>
        rw [handle_write_query_trace_sync_ok env q hts hs] at he
        rcases List.mem_append.mp he with he | he
        · have hsync := syncTables_no_exec env ts e (by rw [hs]; exact he)
          exact ⟨hsync.1, fun s hes => absurd hes (hsync.2 s)⟩
        · simp only [List.mem_singleton] at he
          subst he
          exact ⟨rfl, fun s hes => by cases hes; rfl⟩

lemma classify_query_eq_of_words {s w : String} {ws : List String}
    (h : pyWords s = w :: ws) :
    classify_query s =
      (if w ∈ WRITE_KEYWORDS then "WRITE"
       else if w ∈ READ_KEYWORDS then "READ"
       else if containsSubstr "INTO".data s.data || containsSubstr "SET".data s.data then
         "WRITE"
       else if containsSubstr "FROM".data s.data || containsSubstr "JOIN".data s.data then
         "READ"
       else "UNKNOWN") := by
  unfold classify_query
  rw [h]

lemma analyze_query_fst (q : String) :
    (analyze_query q).1 = classify_query (normalize_query q) := rfl

lemma route_query_rejected (env : DBEnv α) {q : String}
    (h : is_safe_query q = false) :
    route_query env q =
      ({ success := false,
         error := some "Query contains potentially dangerous operations",
         query_type := (analyze_query q).1, routed_to := "rejected" }, []) := by
  simp [route_query, h]

lemma route_query_read (env : DBEnv α) {q : String}
    (hsafe : is_safe_query q = true) (h : (analyze_query q).1 = "READ") :
    route_query env q = handle_read_query env q (analyze_query q).2.1 := by
  simp [route_query, hsafe, h]

lemma route_query_write (env : DBEnv α) {q : String}
    (hsafe : is_safe_query q = true) (h : (analyze_query q).1 = "WRITE") :
    route_query env q = handle_write_query env q (analyze_query q).2.1 := by
  simp [route_query, hsafe, h]

lemma route_query_unknown (env : DBEnv α) {q : String}
    (hsafe : is_safe_query q = true) (h : (analyze_query q).1 = "UNKNOWN") :
    route_query env q = handle_unknown_query env q := by
  simp [route_query, hsafe, h]

/-- Modelled from the spec's words for comparison (claim C8): presence of a
keyword as a whole whitespace-delimited token of the normalized statement,
"not as a substring of another identifier". -/
def tokenPresent (w s : String) : Bool :=
  if w ∈ pyWords s then true else false

/-!
## Claim theorems
-/

/-- C7: for every SQL string whose first token after comment/whitespace
stripping and uppercasing is one of SELECT, SHOW, DESCRIBE, EXPLAIN, USE,
classification yields READ; for every SQL string whose first such token is
one of INSERT, UPDATE, DELETE, REPLACE, TRUNCATE, DROP, CREATE, ALTER,
classification yields WRITE. -/
theorem C7_classification_by_first_token (q w : String) (ws : List String)
    (h : pyWords (normalize_query q) = w :: ws) :
    (w ∈ READ_KEYWORDS → (analyze_query q).1 = "READ") ∧
    (w ∈ WRITE_KEYWORDS → (analyze_query q).1 = "WRITE") := by
  rw [analyze_query_fst, classify_query_eq_of_words h]
  constructor
  · intro hr
    have hw : w ∉ WRITE_KEYWORDS := by
      fin_cases hr <;> decide
    rw [if_neg hw, if_pos hr]
  · intro hw
    rw [if_pos hw]

/-- Witness for C7: a concrete READ statement and a concrete WRITE statement. -/
theorem C7_classification_by_first_token_witness :
    (analyze_query "SELECT 1").1 = "READ" ∧ (analyze_query "DROP TABLE t").1 = "WRITE" :=
  ⟨(C7_classification_by_first_token "SELECT 1" "SELECT" ["1"] rfl).1 (by decide),
   (C7_classification_by_first_token "DROP TABLE t" "DROP" ["TABLE", "T"] rfl).2
     (by decide)⟩

/-- C8 counterexample: the claim's token-based fallback is wrong for
`CALL reset(1)`.  Its first normalized token `CALL` is in neither keyword
set, and none of INTO, SET, FROM, JOIN occurs as a whole token of the
normalized statement, so the claim predicts UNKNOWN; the code classifies it
WRITE, because `SET` occurs as a substring of the identifier `RESET`. -/
theorem C8_token_heuristic_counterexample :
    (pyWords (normalize_query "CALL reset(1)")).head? = some "CALL" ∧
    "CALL" ∉ WRITE_KEYWORDS ∧ "CALL" ∉ READ_KEYWORDS ∧
    tokenPresent "INTO" (normalize_query "CALL reset(1)") = false ∧
    tokenPresent "SET" (normalize_query "CALL reset(1)") = false ∧
    tokenPresent "FROM" (normalize_query "CALL reset(1)") = false ∧
    tokenPresent "JOIN" (normalize_query "CALL reset(1)") = false ∧
    (analyze_query "CALL reset(1)").1 = "WRITE" :=
  ⟨rfl, by decide, by decide, rfl, rfl, rfl, rfl, rfl⟩

/-- C8 (amended): when the first normalized token is in neither keyword set,
the heuristic fallback classifies by Python substring containment on the
normalized statement — `INTO` or `SET` anywhere as a substring (also inside
another identifier) gives WRITE, otherwise `FROM` or `JOIN` as a substring
gives READ, otherwise UNKNOWN. -/
theorem C8_heuristic_fallback_substring (s w : String) (ws : List String)
    (h : pyWords s = w :: ws) (hw : w ∉ WRITE_KEYWORDS) (hr : w ∉ READ_KEYWORDS) :
    classify_query s =
      (if containsSubstr "INTO".data s.data || containsSubstr "SET".data s.data then
        "WRITE"
       else if containsSubstr "FROM".data s.data || containsSubstr "JOIN".data s.data then
        "READ"
       else "UNKNOWN") := by
  rw [classify_query_eq_of_words h, if_neg hw, if_neg hr]

/-- Witness for C8 (amended): the fallback classifies `CALL reset(1)` as
WRITE via the `SET` substring of `RESET`. -/
theorem C8_heuristic_fallback_substring_witness :
    classify_query (normalize_query "CALL reset(1)") = "WRITE" := by
  rw [C8_heuristic_fallback_substring (normalize_query "CALL reset(1)") "CALL"
    ["RESET(1)"] rfl (by decide) (by decide)]
  rfl

/-- C1: for every statement classified as WRITE, the routing engine never
executes any statement against the production engine — the trace of the
WRITE path contains no `execProd` event — and the only statement it executes
against the local engine is the client's statement itself, so production is
never mutated by this path.  (The only production-side access of the path is
the `getSchema` event, the read-only `information_schema.columns` lookup of
`get_table_schema`.) -/
theorem C1_write_path_never_executes_on_production {α : Type} (env : DBEnv α)
    (q : String) (h : (analyze_query q).1 = "WRITE") :
    (route_query env q).2.any isProdExec = false ∧
    (∀ s, DBEvent.execLocal s ∈ (route_query env q).2 → s = q) := by
  by_cases hsafe : is_safe_query q
  · rw [route_query_write env hsafe h]
    have hev := handle_write_query_events env q (analyze_query q).2.1
    constructor
    · rw [List.any_eq_false]
      intro e he
      simp [(hev e he).1]
    · intro s hs
      exact (hev _ hs).2 s rfl
  · rw [Bool.not_eq_true] at hsafe
    rw [route_query_rejected env hsafe]
    simp

/-- Witness for C1 at a concrete INSERT against a table that must first be
synchronized. -/
theorem C1_write_path_never_executes_on_production_witness :
    (route_query envSyncOk "INSERT INTO logs (x) VALUES (1)").2.any isProdExec = false :=
  (C1_write_path_never_executes_on_production envSyncOk
    "INSERT INTO logs (x) VALUES (1)" rfl).1

/-- C2: every statement matching the safety denylist is answered with an
unsuccessful outcome routed to "rejected" and an empty backing-store trace
(no backing-store call at all); and the four statements of the claim are
unsafe while the two SELECT/INSERT statements are safe. -/
theorem C2_unsafe_rejected_no_backing_call :
    (∀ (α : Type) (env : DBEnv α) (q : String), is_safe_query q = false →
      (route_query env q).1.success = false ∧
      (route_query env q).1.routed_to = "rejected" ∧
      (route_query env q).2 = []) ∧
    is_safe_query "DROP DATABASE prod" = false ∧
    is_safe_query "CREATE DATABASE x" = false ∧
    is_safe_query "GRANT ALL PRIVILEGES ON *.* TO \x27u\x27@\x27%\x27" = false ∧
    is_safe_query "FLUSH PRIVILEGES" = false ∧
    is_safe_query "SELECT * FROM users" = true ∧
    is_safe_query "INSERT INTO logs (message) VALUES (\x27t\x27)" = true := by
  refine ⟨?_, rfl, rfl, rfl, rfl, rfl, rfl⟩
  intro α env q hq
  rw [route_query_rejected env hq]
  exact ⟨rfl, rfl, rfl⟩

/-- Witness for C2: the rejected outcome and empty trace at `FLUSH PRIVILEGES`. -/
theorem C2_unsafe_rejected_no_backing_call_witness :
    (route_query envInert "FLUSH PRIVILEGES").1.routed_to = "rejected" ∧
    (route_query envInert "FLUSH PRIVILEGES").2 = [] :=
  ⟨(C2_unsafe_rejected_no_backing_call.1 Unit envInert "FLUSH PRIVILEGES" rfl).2.1,
   (C2_unsafe_rejected_no_backing_call.1 Unit envInert "FLUSH PRIVILEGES" rfl).2.2⟩

/-- C3: a READ whose table list (as passed by `route_query` from extraction)
is non-empty and entirely local is executed against the local store; when
local execution yields a result it returns success with routed_to "local";
when the local engine signals an actual execution error (not an empty result
set) the same statement is executed against production, tagged
routed_to "production", returning success when production succeeds; with an
empty table list or a missing table it executes directly against production
(no local execution at all). -/
theorem C3_read_routing (α : Type) (env : DBEnv α) (q : String) (ts : List String) :
    (ts.isEmpty = false → (∀ t ∈ ts, env.tableExistsLocal t = true) →
      (DBEvent.execLocal q ∈ (handle_read_query env q ts).2) ∧
      (∀ rs, execute_local_query env q = some rs →
        (handle_read_query env q ts).1 =
          { success := true, data := some (some rs), query_type := "READ",
            routed_to := "local", table_names := some ts }) ∧
      (∀ m rs, env.localBackend q = .error m → env.prodBackend q = .rows rs →
        (handle_read_query env q ts).1.success = true ∧
        (handle_read_query env q ts).1.routed_to = "production" ∧
        (handle_read_query env q ts).1.data = some (some rs) ∧
        DBEvent.execProd q ∈ (handle_read_query env q ts).2)) ∧
    ((ts.isEmpty = true ∨ ∃ t ∈ ts, env.tableExistsLocal t = false) →
      (handle_read_query env q ts).1.success = true ∧
      (handle_read_query env q ts).1.routed_to = "production" ∧
      (∀ s, DBEvent.execLocal s ∉ (handle_read_query env q ts).2) ∧
      DBEvent.execProd q ∈ (handle_read_query env q ts).2) := by
  constructor
  · intro hts hall
    have hc := checkTablesLocal_all_true env hall
    refine ⟨?_, ?_, ?_⟩
    · simp only [handle_read_query, hc, hts]
      cases execute_local_query env q <;> simp
    · intro rs hrs
      simp [handle_read_query, hc, hts, hrs]
    · intro m rs hm hrs
      have hl : execute_local_query env q = none := by
        simp [execute_local_query, hm]
      have hp : execute_production_query env q = some rs := by
        simp [execute_production_query, hrs]
      simp [handle_read_query, hc, hts, hl, hp]
  · intro hmiss
    have hcond : ((checkTablesLocal env ts).1 && !ts.isEmpty) = false := by
      rcases hmiss with h | ⟨t, hmem, hf⟩
      · simp [h]
      · simp [checkTablesLocal_false_of_missing env hmem hf]
    refine ⟨?_, ?_, ?_, ?_⟩
    · simp [handle_read_query, hcond]
    · simp [handle_read_query, hcond]
    · intro s hs
      simp only [handle_read_query, hcond, Bool.false_eq_true, if_false] at hs
      rcases List.mem_append.mp hs with hs | hs
      · obtain ⟨t, _, he⟩ := checkTablesLocal_events env ts _ hs
        cases he
      · simp at hs
    · simp [handle_read_query, hcond]

/-- Witness for C3: every table local, local store returns rows — routed
local; and with the table absent, direct production execution. -/
theorem C3_read_routing_witness :
    (handle_read_query envAllLocal "SELECT * FROM users" ["users"]).1 =
      { success := true, data := some (some []), query_type := "READ",
        routed_to := "local", table_names := some ["users"] } ∧
    (handle_read_query envInert "SELECT * FROM users" ["users"]).1.routed_to =
      "production" :=
  ⟨((C3_read_routing Unit envAllLocal "SELECT * FROM users" ["users"]).1 rfl
      (by intro t _; rfl)).2.1 [] rfl,
   ((C3_read_routing Unit envInert "SELECT * FROM users" ["users"]).2
      (Or.inr ⟨"users", by simp, rfl⟩)).2.1⟩

/-- C5 counterexample: both stores fault on `SELECT * FROM users` (the local
engine errors, the router falls back, and production errors too), yet the
routing outcome is success = true with no error message — not the
query-level error the claim requires. -/
theorem C5_backend_fault_counterexample :
    envBothFault.localBackend "SELECT * FROM users" =
      BackendResult.error "local fault" ∧
    envBothFault.prodBackend "SELECT * FROM users" =
      BackendResult.error "production fault" ∧
    (route_query envBothFault "SELECT * FROM users").1.success = true ∧
    (route_query envBothFault "SELECT * FROM users").1.error = none :=
  ⟨rfl, rfl, rfl, rfl⟩

/-- C5 (amended): a local-engine fault on the WRITE path and a
production-engine fault on the UNKNOWN path are reported as success = false
with an error message, and a local fault on the READ path triggers fallback
to production; but a production fault after READ fallback is NOT reported as
an error — the outcome stays success = true with data `None`,
indistinguishable from an empty production result. -/
theorem C5_backend_fault_reporting (α : Type) :
    (∀ (env : DBEnv α) (q : String) (ts : List String) (m : String),
      ts.isEmpty = false → (syncTables env ts).1 = none →
      env.localBackend q = .error m →
      (handle_write_query env q ts).1.success = false ∧
      (handle_write_query env q ts).1.error =
        some "Write query failed on local database") ∧
    (∀ (env : DBEnv α) (q : String) (m : String), env.prodBackend q = .error m →
      (handle_unknown_query env q).1.success = false ∧
      (handle_unknown_query env q).1.routed_to = "production") ∧
    (∀ (env : DBEnv α) (q : String) (ts : List String) (m m' : String),
      ts.isEmpty = false → (∀ t ∈ ts, env.tableExistsLocal t = true) →
      env.localBackend q = .error m → env.prodBackend q = .error m' →
      (handle_read_query env q ts).1.success = true ∧
      (handle_read_query env q ts).1.error = none ∧
      (handle_read_query env q ts).1.data = some none ∧
      (handle_read_query env q ts).1.routed_to = "production") := by
  refine ⟨?_, ?_, ?_⟩
  · intro env q ts m hts hok hm
    have hl : execute_local_query env q = none := by
      simp [execute_local_query, hm]
    cases hs : syncTables env ts with
    | mk fst tr =>
      cases fst with
      | some o => rw [hs] at hok; cases hok
      | none =>
        constructor <;> simp [handle_write_query, hts, hs, hl]
  · intro env q m hm
    have hp : execute_production_query env q = none := by
      simp [execute_production_query, hm]
    constructor <;> simp [handle_unknown_query, hp]
  · intro env q ts m m' hts hall hm hm'
    have hc := checkTablesLocal_all_true env hall
    have hl : execute_local_query env q = none := by
      simp [execute_local_query, hm]
    have hp : execute_production_query env q = none := by
      simp [execute_production_query, hm']
    refine ⟨?_, ?_, ?_, ?_⟩ <;> simp [handle_read_query, hc, hts, hl, hp]

/-- Witness for C5 (amended): concrete faults on each path. -/
theorem C5_backend_fault_reporting_witness :
    (handle_write_query envBothFault "INSERT INTO t (x) VALUES (1)" ["t"]).1.success =
      false ∧
    (handle_unknown_query envBothFault "BEGIN").1.success = false ∧
    (handle_read_query envBothFault "SELECT * FROM t" ["t"]).1.success = true :=
  ⟨((C5_backend_fault_reporting Unit).1 envBothFault "INSERT INTO t (x) VALUES (1)"
      ["t"] "local fault" rfl rfl rfl).1,
   ((C5_backend_fault_reporting Unit).2.1 envBothFault "BEGIN" "production fault"
      rfl).1,
   ((C5_backend_fault_reporting Unit).2.2 envBothFault "SELECT * FROM t" ["t"]
      "local fault" "production fault" rfl (by intro t _; rfl) rfl rfl).1⟩

/-- C6 counterexample: `BEGIN` classifies UNKNOWN; production executes it
without error but without a result set (`noRows`), and the outcome reports
success = false — against the claim that success is reported exactly when
execution did not error, including a row-less success. -/
theorem C6_unknown_noRows_counterexample :
    envProdNoRows.prodBackend "BEGIN" = BackendResult.noRows ∧
    (analyze_query "BEGIN").1 = "UNKNOWN" ∧
    is_safe_query "BEGIN" = true ∧
    (route_query envProdNoRows "BEGIN").1.success = false :=
  ⟨rfl, rfl, rfl, rfl⟩

/-- C6 (amended): an UNKNOWN statement is executed directly against
production (and nothing else), routed_to "production", with the warning
always attached in the outcome's error field; success is reported exactly
when execution returned a result set, so a statement that succeeds without
producing rows is reported as unsuccessful, indistinguishable from an
execution error. -/
theorem C6_unknown_routed_production (α : Type) (env : DBEnv α) (q : String)
    (hsafe : is_safe_query q = true) (h : (analyze_query q).1 = "UNKNOWN") :
    (route_query env q).1.success = (execute_production_query env q).isSome ∧
    (route_query env q).1.routed_to = "production" ∧
    (route_query env q).1.error =
      some "Query type unknown, executed on production" ∧
    (route_query env q).2 = [DBEvent.execProd q] ∧
    (env.prodBackend q = BackendResult.noRows →
      (route_query env q).1.success = false) := by
  rw [route_query_unknown env hsafe h]
  refine ⟨rfl, rfl, rfl, rfl, ?_⟩
  intro hn
  simp [handle_unknown_query, execute_production_query, hn]

/-- Witness for C6 (amended) at the UNKNOWN statement `BEGIN`. -/
theorem C6_unknown_routed_production_witness :
    (route_query envProdNoRows "BEGIN").1.routed_to = "production" ∧
    (route_query envProdNoRows "BEGIN").2 = [DBEvent.execProd "BEGIN"] :=
  ⟨(C6_unknown_routed_production Unit envProdNoRows "BEGIN" rfl rfl).2.1,
   (C6_unknown_routed_production Unit envProdNoRows "BEGIN" rfl rfl).2.2.2.1⟩

/-- C4: a WRITE referencing a table absent locally performs exactly one
schema fetch and one create-table call for that table, both before the write
executes (the trace is the sync trace followed by the single local
execution); if the fetch returns no schema — and no earlier table of the
statement needed creating — the outcome is success = false routed to
"error" with the schema message and the trace contains no local mutation
(no create-table and no statement execution); and a WRITE against a table
that already exists locally never issues a schema fetch for it. -/
theorem C4_write_schema_sync (α : Type) (env : DBEnv α) (q : String)
    (ts : List String) (t : String) :
    (ts.Nodup → t ∈ ts → env.tableExistsLocal t = false →
      (syncTables env ts).1 = none →
      ∃ tr, (handle_write_query env q ts).2 = tr ++ [DBEvent.execLocal q] ∧
        countEvent (.getSchema t) tr = 1 ∧ countEvent (.createTable t) tr = 1) ∧
    (∀ pre post, ts = pre ++ t :: post →
      (∀ t' ∈ pre, env.tableExistsLocal t' = true) →
      env.tableExistsLocal t = false → pyTruthy (env.getSchema t) = false →
      (handle_write_query env q ts).1.success = false ∧
      (handle_write_query env q ts).1.routed_to = "error" ∧
      (handle_write_query env q ts).1.error =
        some ("Failed to get schema for table: " ++ t) ∧
      (handle_write_query env q ts).2.any isLocalMutation = false) ∧
    (env.tableExistsLocal t = true →
      countEvent (.getSchema t) (handle_write_query env q ts).2 = 0) := by
  refine ⟨?_, ?_, ?_⟩
  · intro hnd hmem habs hok
    have hts : ts.isEmpty = false := by
      cases ts with
      | nil => cases hmem
      | cons a as => rfl
    cases hs : syncTables env ts with
    | mk fst tr =>
      cases fst with
      | some o => rw [hs] at hok; cases hok
      | none =>
        refine ⟨tr, handle_write_query_trace_sync_ok env q hts hs, ?_, ?_⟩
        · have := (syncTables_count_one env hnd hmem habs hok).1
          rwa [hs] at this
        · have := (syncTables_count_one env hnd hmem habs hok).2
          rwa [hs] at this
  · intro pre post hts hpre habs hns
    subst hts
    have hsync := syncTables_fail_no_schema env post habs hns pre hpre
    have hne : (pre ++ t :: post).isEmpty = false := by
      cases pre <;> rfl
    rw [handle_write_query_trace_sync_fail env q hne hsync]
    refine ⟨rfl, rfl, rfl, ?_⟩
    rw [List.any_eq_false]
    intro e he
    rcases List.mem_append.mp he with he | he
    · obtain ⟨x, _, rfl⟩ := List.mem_map.mp he
      simp [isLocalMutation]
    · rcases List.mem_cons.mp he with rfl | he
      · simp [isLocalMutation]
      · rcases List.mem_cons.mp he with rfl | he
        · simp [isLocalMutation]
        · cases he
  · intro hex
    by_cases hts : ts.isEmpty
    · simp [handle_write_query, hts, countEvent]
    · rw [Bool.not_eq_true] at hts
      cases hs : syncTables env ts with
      | mk fst tr =>
        have htr : (syncTables env ts).2 = tr := by rw [hs]
        have hzero := syncTables_getSchema_zero_of_exists env ts (t := t) hex
        rw [htr] at hzero
        cases fst with
        | some o =>
          rw [handle_write_query_trace_sync_fail env q hts hs]
          exact hzero
        | none =>
          rw [handle_write_query_trace_sync_ok env q hts hs, countEvent_append,
            hzero]
          rfl

/-- Witness for C4: one absent table is fetched and created exactly once
before the write; a table that exists locally triggers no schema fetch. -/
theorem C4_write_schema_sync_witness :
    (∃ tr, (handle_write_query envSyncOk "INSERT INTO t (x) VALUES (1)" ["t"]).2 =
        tr ++ [DBEvent.execLocal "INSERT INTO t (x) VALUES (1)"] ∧
      countEvent (.getSchema "t") tr = 1 ∧ countEvent (.createTable "t") tr = 1) ∧
    countEvent (.getSchema "t")
      (handle_write_query envAllLocal "INSERT INTO t (x) VALUES (1)" ["t"]).2 = 0 :=
  ⟨(C4_write_schema_sync Unit envSyncOk "INSERT INTO t (x) VALUES (1)" ["t"] "t").1
      (by decide) (by decide) rfl rfl,
   (C4_write_schema_sync Unit envAllLocal "INSERT INTO t (x) VALUES (1)" ["t"] "t").2.2
      rfl⟩

/-- C9: a short header (fewer than 4 bytes) or a delivered payload shorter
than the declared 3-byte little-endian length yields no packet and closes
the session (the query loop breaks and the socket is closed); a frame whose
delivered payload equals the declared length is accepted by the read. -/
theorem C9_short_read_closes_session (header payload : List Nat) :
    (header.length < 4 →
      read_packet header payload = none ∧
      query_loop_step header payload = SessionState.closed) ∧
    (payload.length < leBytes3 header →
      read_packet header payload = none ∧
      query_loop_step header payload = SessionState.closed) ∧
    (header.length = 4 → payload.length = leBytes3 header →
      read_packet header payload = some payload) := by
  refine ⟨?_, ?_, ?_⟩
  · intro h
    have hr : read_packet header payload = none := by simp [read_packet, h]
    exact ⟨hr, by simp [query_loop_step, hr]⟩
  · intro h
    have hr : read_packet header payload = none := by
      by_cases h4 : header.length < 4 <;> simp [read_packet, h4, h]
    exact ⟨hr, by simp [query_loop_step, hr]⟩
  · intro h4 hlen
    unfold read_packet
    rw [if_neg (by omega), if_neg (by omega)]

/-- Witness for C9: a 4-byte header declaring 2 payload bytes with exactly 2
delivered bytes is accepted; with only 1 delivered byte the session closes. -/
theorem C9_short_read_closes_session_witness :
    read_packet [2, 0, 0, 0] [5, 6] = some [5, 6] ∧
    query_loop_step [2, 0, 0, 0] [5] = SessionState.closed :=
  ⟨(C9_short_read_closes_session [2, 0, 0, 0] [5, 6]).2.2 rfl rfl,
   ((C9_short_read_closes_session [2, 0, 0, 0] [5]).2.1 (by decide)).2⟩

/-- C10: a successfully executed WRITE whose raw statement (uppercased) does
not begin with INSERT, UPDATE or DELETE gets `rows_affected` present with
Python value `None`; the session's result encoding then fails on
`None.to_bytes(8, 'little')` and the client receives the error frame
`"Failed to send results"` instead of a write acknowledgment, although the
outcome was successful. -/
theorem C10_rows_affected_none_breaks_ack (α : Type) (env : DBEnv α) (q : String)
    (hsafe : is_safe_query q = true) (hcls : (analyze_query q).1 = "WRITE")
    (hsucc : (route_query env q).1.success = true)
    (hni : "INSERT".data.isPrefixOf (pyUpper q.data) = false)
    (hnu : "UPDATE".data.isPrefixOf (pyUpper q.data) = false)
    (hnd : "DELETE".data.isPrefixOf (pyUpper q.data) = false) :
    (route_query env q).1.rows_affected = some none ∧
    handle_query env q = Response.errorFrame "Failed to send results" := by
  rw [route_query_write env hsafe hcls] at hsucc
  obtain ⟨rs, hl, hshape⟩ :=
    handle_write_query_success_shape env q (analyze_query q).2.1 hsucc
  have hra : get_rows_affected q = none := by
    simp [get_rows_affected, hni, hnu, hnd]
  have hout : (route_query env q).1 =
      { success := true, data := some (some rs), query_type := "WRITE",
        routed_to := "local", table_names := some (analyze_query q).2.1,
        rows_affected := some (get_rows_affected q) } := by
    rw [route_query_write env hsafe hcls, hshape]
  constructor
  · rw [hout, hra]
  · simp [handle_query, hout, send_results, pyTruthyData, pyGetRowsAffected, hra]

/-- Witness for C10: a successful `CREATE TABLE` write is acknowledged with
the error frame instead of an OK packet. -/
theorem C10_rows_affected_none_breaks_ack_witness :
    (route_query envSyncOk "CREATE TABLE t (x INT)").1.rows_affected = some none ∧
    handle_query envSyncOk "CREATE TABLE t (x INT)" =
      Response.errorFrame "Failed to send results" :=
  C10_rows_affected_none_breaks_ack Unit envSyncOk "CREATE TABLE t (x INT)"
    rfl rfl rfl rfl rfl rfl
